import Mathlib

/-!
Verification development for the "Aer Lemmings" 2D puzzle-action game.

The repository contains two engine variants:
* `src/GameEngine.ts` — the three-ability engine (bridge / doorBreaker /
  securityBriber), embedded below in namespace `Game`;
* `dist/GameEngine.js` — the single "wall smasher" engine, whose
  obstacle-interaction resolver (the only part any claim depends on) is
  embedded in namespace `DistGame`.

Coordinates and times are JavaScript numbers; they are embedded as
rationals (ℚ).  Every `Math.sqrt(a) < r` comparison in the source (with
`a, r ≥ 0`) is translated to the equivalent `a < r ^ 2`, which keeps all
computations inside ℚ.  `Math.random()` and `Date.now()` are modelled as
oracle inputs (`rand : ℕ → ℚ`, `now : ℚ`).
-/

namespace Game

/-- `SuperPower` from `types.ts` (`'bridge' | 'doorBreaker' | 'securityBriber' | null`);
the `null` case is `Option.none` at use sites. -/
inductive SuperPower where
  | bridge
  | doorBreaker
  | securityBriber
deriving DecidableEq, Repr

/-- `GameState` enum from `types.ts`. -/
inductive GameState where
  | MENU
  | PLAYING
  | PAUSED
  | LEVEL_COMPLETE
  | GAME_OVER
  | VICTORY
deriving DecidableEq, Repr

/-- `Vector2` from `types.ts`. -/
structure Vec2 where
  x : ℚ
  y : ℚ
deriving DecidableEq, Repr

/-- `BoundingBox` from `types.ts`; also the element type of the engine's
`platforms` and `walls` arrays (`{x, y, width, height}`). -/
structure Box where
  x : ℚ
  y : ℚ
  width : ℚ
  height : ℚ
deriving DecidableEq, Repr

/-- Element type of the engine's `obstacles` array
(`{type; x; y; width; height; id}`); `type` is a plain string exactly as in
the source (`'wall' | 'door' | 'gap' | 'security' | 'securityGuard'`). -/
structure Obstacle where
  type : String
  x : ℚ
  y : ℚ
  width : ℚ
  height : ℚ
  id : String
deriving DecidableEq, Repr

/-- Element type of the engine's `bridges` array (`{x, y, width}`). -/
structure Bridge where
  x : ℚ
  y : ℚ
  width : ℚ
deriving DecidableEq, Repr

/-- `CollisionSystem.checkAABB` from `CollisionSystem.ts`: strict AABB
overlap test. -/
def checkAABB (box1 box2 : Box) : Bool :=
  decide (box1.x < box2.x + box2.width) &&
  decide (box1.x + box1.width > box2.x) &&
  decide (box1.y < box2.y + box2.height) &&
  decide (box1.y + box1.height > box2.y)

/-- The `Passenger` entity from `Passenger.js`.  `width`/`height` are the
instance fields initialised to 24/32 and never reassigned. -/
structure Passenger where
  posX : ℚ
  posY : ℚ
  velX : ℚ
  velY : ℚ
  width : ℚ := 24
  height : ℚ := 32
  superPower : Option SuperPower
  isActive : Bool := true
  hasReachedGate : Bool := false
  isFalling : Bool := false
  /-- `-1` for left, `1` for right. -/
  direction : ℚ := 1
  isUsingPower : Bool := false
  powerCooldown : ℚ := 0
  color : String
  id : String
deriving DecidableEq, Repr

/-- `Passenger.getColorForPower` (identical to
`GameEngine.getColorForPower` in `src/GameEngine.ts`). -/
def getColorForPower : Option SuperPower → String
  | some .bridge => "#4CAF50"
  | some .doorBreaker => "#FF9800"
  | some .securityBriber => "#9C27B0"
  | _ => "#2196F3"

/-- The `Passenger` constructor. -/
def Passenger.create (startPosition : Vec2) (superPower : Option SuperPower)
    (id : String) : Passenger :=
  { posX := startPosition.x, posY := startPosition.y
    velX := 0, velY := 0
    superPower := superPower
    color := getColorForPower superPower
    id := id }

/-- `Passenger.getBounds`. -/
def Passenger.getBounds (p : Passenger) : Box :=
  ⟨p.posX, p.posY, p.width, p.height⟩

/-- `Passenger.reverseDirection`. -/
def Passenger.reverseDirection (p : Passenger) : Passenger :=
  { p with direction := if p.direction = 1 then -1 else 1 }

/-- `Passenger.activateSuperPower`; returns the updated passenger together
with the boolean result. -/
def Passenger.activateSuperPower (p : Passenger) : Passenger × Bool :=
  if p.superPower.isNone || decide (p.powerCooldown > 0) || p.isUsingPower then
    (p, false)
  else
    ({ p with isUsingPower := true, powerCooldown := 2 }, true)

/-- `Passenger.stopUsingPower`. -/
def Passenger.stopUsingPower (p : Passenger) : Passenger :=
  { p with isUsingPower := false }

/-- `Passenger.checkReachedGate`; returns the updated passenger together
with the boolean result. -/
def Passenger.checkReachedGate (p : Passenger) (gatePosition : Vec2)
    (gateWidth : ℚ) : Passenger × Bool :=
  if p.hasReachedGate then (p, false)
  else
    let bounds := p.getBounds
    let gateLeft := gatePosition.x
    let gateRight := gatePosition.x + gateWidth
    let gateTop := gatePosition.y
    let gateBottom := gatePosition.y + 50
    if bounds.x + bounds.width ≥ gateLeft ∧ bounds.x ≤ gateRight ∧
        bounds.y + bounds.height ≥ gateTop ∧ bounds.y ≤ gateBottom then
      ({ p with hasReachedGate := true, isActive := false }, true)
    else
      (p, false)

/-- `Passenger.update` from `Passenger.js`: gravity, target-seeking
horizontal movement with wall reversal (skipped for `doorBreaker`
holders), platform snap / push-out, wall vertical push-out, falling flag,
and the cooldown decrement.  The two vertical loops are folds whose state
mirrors the mutable locals `(newY, velocity.y, isFalling, onPlatform)`;
the platform loop additionally carries the `break` flag of the snap
branch.  `testBoundsY` is captured once before the loops, exactly as the
object literal in the source. -/
def Passenger.update (p : Passenger) (deltaTime : ℚ)
    (platforms walls : List Box) (targetX _targetY : ℚ) : Passenger :=
  if !p.isActive || p.hasReachedGate then p
  else
    let vy := p.velY + 500 * deltaTime
    let speed : ℚ := 50
    let dx := targetX - p.posX
    let direction := if |dx| > 10 then (if dx > 0 then (1 : ℚ) else -1) else p.direction
    let vx := direction * speed
    let deltaX := vx * deltaTime
    let deltaY := vy * deltaTime
    let newX := p.posX + deltaX
    let testBoundsX : Box := ⟨newX, p.posY, p.width, p.height⟩
    -- horizontal wall check, skipped when the passenger is a doorBreaker
    let hitWall :=
      decide (p.superPower ≠ some .doorBreaker) &&
        walls.any (fun wall => checkAABB testBoundsX wall)
    let direction := if hitWall then (if direction = 1 then (-1 : ℚ) else 1) else direction
    let vx := if hitWall then direction * speed else vx
    let newX := if hitWall then p.posX else newX
    -- vertical movement
    let newY0 := p.posY + deltaY
    let feetY := p.posY + p.height
    let testBoundsY : Box := ⟨newX, newY0, p.width, p.height⟩
    let platState :=
      platforms.foldl
        (fun (s : ℚ × ℚ × Bool × Bool × Bool) plat =>
          let (newY, vyc, fall, onP, broke) := s
          if broke then s
          else if decide (newX + p.width > plat.x) && decide (newX < plat.x + plat.width) &&
              decide (feetY ≥ plat.y - 2) && decide (feetY ≤ plat.y + 5) &&
              decide (vyc ≥ 0) then
            (plat.y - p.height, 0, false, true, true)
          else if checkAABB testBoundsY plat then
            let overlapTop := testBoundsY.y + testBoundsY.height - plat.y
            let overlapBottom := plat.y + plat.height - testBoundsY.y
            if decide (overlapTop < overlapBottom) && decide (vyc < 0) then
              (plat.y + plat.height, 0, fall, onP, broke)
            else s
          else s)
        (newY0, vy, p.isFalling, false, false)
    let wallState :=
      walls.foldl
        (fun (s : ℚ × ℚ × Bool) wall =>
          if checkAABB testBoundsY wall then
            let overlapTop := testBoundsY.y + testBoundsY.height - wall.y
            let overlapBottom := wall.y + wall.height - testBoundsY.y
            if overlapTop < overlapBottom then (wall.y - p.height, 0, true)
            else (wall.y + wall.height, 0, s.2.2)
          else s)
        (platState.1, platState.2.1, platState.2.2.2.1)
    let newY2 := wallState.1
    let vy2 := wallState.2.1
    let isFalling2 := if !wallState.2.2 && decide (vy2 > 0) then true else platState.2.2.1
    let cooldown :=
      if p.powerCooldown > 0 then p.powerCooldown - deltaTime else p.powerCooldown
    { p with posX := newX, posY := newY2, velX := vx, velY := vy2,
             direction := direction, isFalling := isFalling2,
             powerCooldown := cooldown }

/-- Element type of `LevelConfig.obstacles` (`types.ts`). -/
structure ConfigObstacle where
  type : String
  position : Vec2
  width : ℚ
  height : ℚ
  id : String
deriving DecidableEq, Repr

/-- `LevelConfig` from `types.ts` (the `baddies` array is always empty in
the generator — "No baddies - removed per user request" — and is omitted). -/
structure LevelConfig where
  levelNumber : ℕ
  obstacles : List ConfigObstacle
  spawnPoint : Vec2
  checkInGate : Vec2
  difficulty : ℕ
deriving DecidableEq, Repr

/-- The main-path `while` loop of `generateLevelConfig`
(`while (currentX < targetX - 100)`).  The source's loop terminates
because each step advances `currentX` by at least 110 when the random
oracle yields values in `[0,1)`; an arbitrary oracle could stall it, so
the recursion carries explicit fuel (the caller passes a bound far above
any reachable iteration count).  State: fuel, `currentX`, `currentY`,
the `platforms` triples `(x, y, width)`, the obstacles pushed so far and
the next random-oracle index. -/
def pathPlatforms (rand : ℕ → ℚ) (groundLevel targetX : ℚ) :
    ℕ → ℚ → ℚ → List (ℚ × ℚ × ℚ) → List ConfigObstacle → ℕ →
    List (ℚ × ℚ × ℚ) × List ConfigObstacle × ℕ
  | 0, _, _, plats, obs, i => (plats, obs, i)
  | fuel + 1, currentX, currentY, plats, obs, i =>
    if currentX < targetX - 100 then
      let platformWidth := 80 + rand i * 120
      let nextY := currentY + (if rand (i + 1) < 0.3 then -80 else 0) +
        (if rand (i + 2) < 0.2 then 100 else 0)
      let clampedY := max 50 (min nextY (groundLevel - 100))
      let plats' := plats ++ [(currentX, clampedY, platformWidth)]
      let obs' := obs ++ [⟨"wall", ⟨currentX, clampedY⟩, platformWidth, 20,
        "path_platform_" ++ toString plats'.length⟩]
      pathPlatforms rand groundLevel targetX fuel
        (currentX + platformWidth + (30 + rand (i + 3) * 50)) clampedY plats' obs' (i + 4)
    else (plats, obs, i)

/-- `GameEngine.generateLevelConfig` (src variant), parameterised by the
canvas width and ground level it reads from `this`, with `Math.random()`
drawn from the oracle `rand` in source order. -/
def generateLevelConfig (canvasWidth groundLevel : ℚ) (level : ℕ)
    (rand : ℕ → ℚ) : LevelConfig :=
  let difficulty := level
  let spawnPlatformY : ℚ := 50
  let spawnPlatformWidth : ℚ := 150
  let obs0 : List ConfigObstacle :=
    [⟨"wall", ⟨0, spawnPlatformY⟩, spawnPlatformWidth, 20, "spawn_platform"⟩]
  let platformCount := 15 + level * 5
  let targetX := canvasWidth - 200
  let (plats, obs1, i1) :=
    pathPlatforms rand groundLevel targetX 100000
      (spawnPlatformWidth + 50) spawnPlatformY [] obs0 0
  -- additional scattered platforms (loop count is 0 when the main path
  -- already produced `platformCount` or more platforms, as in JS)
  let (obs2, i2) := (List.range (platformCount - plats.length)).foldl
    (fun (s : List ConfigObstacle × ℕ) k =>
      let (obs, i) := s
      let x := 100 + rand i * (canvasWidth - 200)
      let y := 80 + rand (i + 1) * (groundLevel - 150)
      let width := 60 + rand (i + 2) * 100
      (obs ++ [⟨"wall", ⟨x, y⟩, width, 20, "platform_" ++ toString k⟩], i + 3))
    (obs1, i1)
  -- vertical wall barriers
  let wallCount := 8 + level * 3
  let (obs3, i3) := (List.range wallCount).foldl
    (fun (s : List ConfigObstacle × ℕ) k =>
      let (obs, i) := s
      let x := 150 + rand i * (canvasWidth - 300)
      let y := 100 + rand (i + 1) * (groundLevel - 200)
      let height := 60 + rand (i + 2) * 120
      (obs ++ [⟨"wall", ⟨x, y⟩, 20, height, "wall_" ++ toString k⟩], i + 3))
    (obs2, i2)
  -- floor gaps
  let gapCount := 5 + level * 2
  let (obs4, i4) := (List.range gapCount).foldl
    (fun (s : List ConfigObstacle × ℕ) k =>
      let (obs, i) := s
      let x := 200 + (k : ℚ) * 200 + rand i * 150
      let y := groundLevel - 30
      (obs ++ [⟨"gap", ⟨x, y⟩, 50 + rand (i + 1) * 60, 20, "gap_" ++ toString k⟩], i + 2))
    (obs3, i3)
  -- doors and security checkpoints, alternating
  let (obs5, i5) := (List.range (3 + level)).foldl
    (fun (s : List ConfigObstacle × ℕ) k =>
      let (obs, i) := s
      let x := 300 + (k : ℚ) * 250 + rand i * 100
      let y := 120 + rand (i + 1) * (groundLevel - 200)
      (obs ++ [⟨if k % 2 = 0 then "door" else "security", ⟨x, y⟩, 20, 60,
        "special_" ++ toString k⟩], i + 2))
    (obs4, i4)
  -- security guards placed above one of the first few main-path platforms
  let (obs6, _) := (List.range (2 + level)).foldl
    (fun (s : List ConfigObstacle × ℕ) k =>
      let (obs, i) := s
      let idx := ⌊rand i * min (plats.length : ℚ) 5⌋
      let platform := if idx < 0 then none else plats.get? idx.toNat
      let x := match platform with
        | some pl => pl.1 + 20
        | none => 400 + (k : ℚ) * 200
      let y := match platform with
        | some pl => pl.2.1 - 50
        | none => groundLevel - 30
      (obs ++ [⟨"securityGuard", ⟨x, y⟩, 20, 50, "guard_" ++ toString k⟩], i + 1))
    (obs5, i5)
  { levelNumber := level
    obstacles := obs6
    spawnPoint := ⟨50, spawnPlatformY - 32⟩
    checkInGate := ⟨canvasWidth - 150, groundLevel - 30⟩
    difficulty := difficulty }

/-- The engine's `powerCounts` map; `initializePowerCounts` always fills
all three keys, so the map is modelled as a total record. -/
structure PowerCounts where
  bridge : ℤ
  doorBreaker : ℤ
  securityBriber : ℤ
deriving DecidableEq, Repr

/-- `powerCounts.get(power)` (the `|| 0` default never fires: all keys
are present from construction). -/
def PowerCounts.get (c : PowerCounts) : SuperPower → ℤ
  | .bridge => c.bridge
  | .doorBreaker => c.doorBreaker
  | .securityBriber => c.securityBriber

/-- `powerCounts.set(power, n)`. -/
def PowerCounts.set (c : PowerCounts) : SuperPower → ℤ → PowerCounts
  | .bridge, n => { c with bridge := n }
  | .doorBreaker, n => { c with doorBreaker := n }
  | .securityBriber, n => { c with securityBriber := n }

/-- `GameEngine.initializePowerCounts` (src variant). -/
def initializePowerCounts : PowerCounts := ⟨10, 8, 6⟩

/-- The simulation-relevant state of `GameEngine` (src variant).
Rendering-only fields (`ctx`, `airportLayout`, `soundManager`,
`logoImage`, `lastTime`, the always-empty `baddies`) are omitted; the
canvas dimensions the simulation reads are kept.  `selectedPassenger`
holds the index of the selected passenger in `passengers` (the source
stores an object reference; within a level the array is append-only, so
the index is a faithful stand-in). -/
structure GameEngine where
  gameState : GameState := .MENU
  passengers : List Passenger := []
  bridges : List Bridge := []
  currentLevel : ℕ := 1
  levelConfig : Option LevelConfig := none
  levelStartTime : ℚ := 0
  levelTimeLimit : ℚ := 300
  passengersSpawned : ℕ := 0
  totalPassengers : ℕ := 100
  spawnInterval : ℚ := 1/2
  spawnTimer : ℚ := 0
  groundLevel : ℚ
  checkInGate : Vec2 := ⟨0, 0⟩
  gateWidth : ℚ := 100
  obstacles : List Obstacle := []
  platforms : List Box := []
  walls : List Box := []
  selectedPassenger : Option ℕ := none
  selectedPower : Option SuperPower := none
  powerCounts : PowerCounts := initializePowerCounts
  uiHeight : ℚ := 120
  canvasWidth : ℚ
  canvasHeight : ℚ

/-- `GameEngine.buildPlatformsAndWalls`: classify obstacles into platforms
(`width > height`) and walls, append the full-width ground platform, then
append every bridge as a platform. -/
def GameEngine.buildPlatformsAndWalls (e : GameEngine) : GameEngine :=
  let classified := e.obstacles.filter (fun o =>
    decide (o.type = "wall") || decide (o.type = "door") ||
    decide (o.type = "security") || decide (o.type = "securityGuard"))
  let platforms := (classified.filter (fun o => decide (o.width > o.height))).map
    (fun o => Box.mk o.x o.y o.width o.height)
  let walls := (classified.filter (fun o => !decide (o.width > o.height))).map
    (fun o => Box.mk o.x o.y o.width o.height)
  { e with
    platforms := platforms ++ [⟨0, e.groundLevel, e.canvasWidth, 20⟩] ++
      e.bridges.map (fun b => ⟨b.x, b.y, b.width, 10⟩)
    walls := walls }

/-- `GameEngine.loadLevel` (`createAirportLayout` is decorative and out of
scope). -/
def GameEngine.loadLevel (e : GameEngine) (config : LevelConfig) : GameEngine :=
  let e1 := { e with
    obstacles := config.obstacles.map (fun obs : ConfigObstacle =>
      Obstacle.mk obs.type obs.position.x obs.position.y obs.width obs.height obs.id)
    checkInGate := config.checkInGate }
  e1.buildPlatformsAndWalls

/-- `GameEngine.startLevel`; `Date.now() / 1000` is the oracle `now` and
`Math.random()` the oracle `rand`. -/
def GameEngine.startLevel (e : GameEngine) (level : ℕ) (now : ℚ)
    (rand : ℕ → ℚ) : GameEngine :=
  let e1 := { e with
    currentLevel := level
    gameState := GameState.PLAYING
    passengers := []
    bridges := []
    passengersSpawned := 0
    spawnTimer := 0
    levelStartTime := now
    selectedPower := none
    selectedPassenger := none
    powerCounts := initializePowerCounts }
  let config := generateLevelConfig e1.canvasWidth e1.groundLevel level rand
  GameEngine.loadLevel { e1 with levelConfig := some config } config

/-- `GameEngine.nextLevel`. -/
def GameEngine.nextLevel (e : GameEngine) (now : ℚ) (rand : ℕ → ℚ) : GameEngine :=
  if e.currentLevel < 10 then e.startLevel (e.currentLevel + 1) now rand else e

/-- `GameEngine.pause`: toggle between Playing and Paused. -/
def GameEngine.pause (e : GameEngine) : GameEngine :=
  if e.gameState = GameState.PLAYING then { e with gameState := GameState.PAUSED }
  else if e.gameState = GameState.PAUSED then { e with gameState := GameState.PLAYING }
  else e

/-- `GameEngine.spawnPassenger`; `r` is the single `Math.random()` draw
used for the cumulative ability thresholds. -/
def GameEngine.spawnPassenger (e : GameEngine) (r : ℚ) : GameEngine :=
  match e.levelConfig with
  | none => e
  | some cfg =>
    let superPower : Option SuperPower :=
      if r < 0.15 then some .bridge
      else if r < 0.25 then some .doorBreaker
      else if r < 0.32 then some .securityBriber
      else none
    let p := Passenger.create cfg.spawnPoint superPower
      ("passenger_" ++ toString e.passengersSpawned)
    { e with passengers := e.passengers ++ [p]
             passengersSpawned := e.passengersSpawned + 1 }

/-- `GameEngine.handleObstacleInteraction` (src variant): the per-type
switch.  Operates on the passenger together with the engine's `obstacles`
and `bridges`, the only engine state it touches. -/
def handleObstacleInteraction (p : Passenger) (o : Obstacle)
    (obstacles : List Obstacle) (bridges : List Bridge) :
    Passenger × List Obstacle × List Bridge :=
  if o.type = "wall" then
    (p.reverseDirection, obstacles, bridges)
  else if o.type = "door" then
    if p.superPower = some .doorBreaker ∧ p.activateSuperPower.2 = true then
      (p.activateSuperPower.1, obstacles.filter (fun ob => decide (ob.id ≠ o.id)), bridges)
    else
      (p.reverseDirection, obstacles, bridges)
  else if o.type = "gap" then
    let hasBridge := bridges.any (fun b =>
      decide (b.x ≤ o.x + o.width) && decide (b.x + b.width ≥ o.x))
    if hasBridge then (p, obstacles, bridges)
    else if p.superPower = some .bridge ∧ p.activateSuperPower.2 = true then
      (p.activateSuperPower.1,
       obstacles.filter (fun ob => decide (ob.id ≠ o.id)),
       bridges ++ [⟨o.x, o.y + o.height - 10, o.width⟩])
    else
      ({ p.reverseDirection with isFalling := true }, obstacles, bridges)
  else if o.type = "security" then
    if p.superPower = some .securityBriber ∧ p.activateSuperPower.2 = true then
      (p.activateSuperPower.1, obstacles.filter (fun ob => decide (ob.id ≠ o.id)), bridges)
    else
      (p.reverseDirection, obstacles, bridges)
  else if o.type = "securityGuard" then
    if p.superPower = some .securityBriber ∧ p.activateSuperPower.2 = true then
      (p.activateSuperPower.1, obstacles.filter (fun ob => decide (ob.id ≠ o.id)), bridges)
    else
      let p1 := p.reverseDirection
      ({ p1 with velX := p1.velX * 0.3 }, obstacles, bridges)
  else (p, obstacles, bridges)

/-- One step of the `for (const obstacle of this.obstacles)` loop in
`handleObstacleCollisions`: the gap proximity test (leading foot inside
the gap band and no spanning bridge) or the solid-obstacle AABB test,
then the interaction.  `passengerBounds` is the snapshot taken before the
loop. -/
def collideStep (passengerBounds : Box) (o : Obstacle)
    (pc : Passenger) (obs : List Obstacle) (brs : List Bridge) :
    Passenger × List Obstacle × List Bridge :=
  if o.type = "gap" then
    let gapLeft := o.x
    let gapRight := o.x + o.width
    let passengerFeetX := pc.posX + (if pc.direction = 1 then pc.width else 0)
    let passengerFeetY := pc.posY + pc.height
    if passengerFeetX ≥ gapLeft ∧ passengerFeetX ≤ gapRight ∧
        passengerFeetY ≥ o.y ∧ passengerFeetY ≤ o.y + o.height then
      let hasBridge := brs.any (fun b =>
        decide (b.x ≤ o.x + o.width) && decide (b.x + b.width ≥ o.x))
      if hasBridge then (pc, obs, brs)
      else handleObstacleInteraction pc o obs brs
    else (pc, obs, brs)
  else
    if checkAABB passengerBounds ⟨o.x, o.y, o.width, o.height⟩ then
      handleObstacleInteraction pc o obs brs
    else (pc, obs, brs)

/-- The obstacle loop of `handleObstacleCollisions`.  The first list
argument is the iteration snapshot (`for ... of this.obstacles` iterates
the array captured at loop entry even though `this.obstacles` is
reassigned by interactions); the live obstacle list is threaded through
the state. -/
def collideLoop (passengerBounds : Box) :
    List Obstacle → Passenger → List Obstacle → List Bridge →
    Passenger × List Obstacle × List Bridge
  | [], pc, obs, brs => (pc, obs, brs)
  | o :: rest, pc, obs, brs =>
    let s := collideStep passengerBounds o pc obs brs
    collideLoop passengerBounds rest s.1 s.2.1 s.2.2

/-- `GameEngine.handleObstacleCollisions` (src variant). -/
def handleObstacleCollisions (p : Passenger) (obstacles : List Obstacle)
    (bridges : List Bridge) : Passenger × List Obstacle × List Bridge :=
  collideLoop p.getBounds obstacles p obstacles bridges

/-- The body of the per-passenger `forEach` in `update`: physics, then
obstacle collisions, then the gate check (its sound-only boolean result
is dropped). -/
def tickPassenger (platforms walls : List Box) (gate : Vec2)
    (gateWidth deltaTime : ℚ) (p : Passenger) (obstacles : List Obstacle)
    (bridges : List Bridge) : Passenger × List Obstacle × List Bridge :=
  let p1 := p.update deltaTime platforms walls gate.x gate.y
  let s := handleObstacleCollisions p1 obstacles bridges
  ((s.1.checkReachedGate gate gateWidth).1, s.2.1, s.2.2)

/-- The `passengers.forEach` loop of `update`: each passenger is stepped
in order while the engine's obstacle and bridge lists evolve;
`platforms`/`walls` are the lists rebuilt once before the loop (nothing
in the loop writes them in this engine variant). -/
def tickAll (platforms walls : List Box) (gate : Vec2)
    (gateWidth deltaTime : ℚ) :
    List Passenger → List Obstacle → List Bridge →
    List Passenger × List Obstacle × List Bridge
  | [], obs, brs => ([], obs, brs)
  | p :: rest, obs, brs =>
    let s := tickPassenger platforms walls gate gateWidth deltaTime p obs brs
    let t := tickAll platforms walls gate gateWidth deltaTime rest s.2.1 s.2.2
    (s.1 :: t.1, t.2.1, t.2.2)

/-- The spawn section of `update` (runs after the time-limit check). -/
def GameEngine.updateSpawn (e : GameEngine) (r deltaTime : ℚ) : GameEngine :=
  if e.passengersSpawned < e.totalPassengers then
    let st := e.spawnTimer + deltaTime
    if st ≥ e.spawnInterval then { e.spawnPassenger r with spawnTimer := 0 }
    else { e with spawnTimer := st }
  else e

/-- The physics section of `update`: rebuild platforms/walls, then run the
passenger loop. -/
def GameEngine.updatePhysics (e : GameEngine) (deltaTime : ℚ) : GameEngine :=
  let e2 := e.buildPlatformsAndWalls
  let t := tickAll e2.platforms e2.walls e2.checkInGate e2.gateWidth deltaTime
    e2.passengers e2.obstacles e2.bridges
  { e2 with passengers := t.1, obstacles := t.2.1, bridges := t.2.2 }

/-- The win/lose evaluation at the end of `update`. -/
def GameEngine.updateWinCheck (e : GameEngine) : GameEngine :=
  let activePassengers := e.passengers.filter (fun p => p.isActive && !p.hasReachedGate)
  let reachedGate := (e.passengers.filter (fun p => p.hasReachedGate)).length
  if e.passengersSpawned ≥ e.totalPassengers ∧ activePassengers.length = 0 then
    if reachedGate ≥ 50 then
      if e.currentLevel ≥ 10 then { e with gameState := GameState.VICTORY }
      else { e with gameState := GameState.LEVEL_COMPLETE }
    else { e with gameState := GameState.GAME_OVER }
  else e

/-- `GameEngine.update` (src variant): no-op unless Playing; time-limit
check against the wall clock `now`; spawn; rebuild; passenger loop; win
check.  `r` is the `Math.random()` draw consumed if a spawn fires. -/
def GameEngine.update (e : GameEngine) (now r deltaTime : ℚ) : GameEngine :=
  if e.gameState ≠ GameState.PLAYING then e
  else
    let elapsed := now - e.levelStartTime
    if elapsed ≥ e.levelTimeLimit then { e with gameState := GameState.GAME_OVER }
    else
      (((e.updateSpawn r deltaTime).updatePhysics deltaTime)).updateWinCheck

/-- `GameEngine.handleUIClick` (src variant): icon hit-testing in the UI
band; selecting an ability requires a positive remaining count; every
other in-band or out-of-band click deselects (except an icon click with
an exhausted count, which returns leaving the selection untouched). -/
def GameEngine.handleUIClick (e : GameEngine) (x y uiY : ℚ) : GameEngine :=
  let iconSize : ℚ := 32
  let iconSpacing : ℚ := 40
  let iconY := uiY + 40
  if y ≥ iconY ∧ y ≤ iconY + iconSize then
    if x ≥ 10 ∧ x ≤ 10 + iconSize then
      if e.powerCounts.get .bridge > 0 then
        { e with selectedPower := some .bridge }
      else e
    else if x ≥ 10 + iconSpacing ∧ x ≤ 10 + iconSpacing + iconSize then
      if e.powerCounts.get .doorBreaker > 0 then
        { e with selectedPower := some .doorBreaker }
      else e
    else if x ≥ 10 + iconSpacing * 2 ∧ x ≤ 10 + iconSpacing * 2 + iconSize then
      if e.powerCounts.get .securityBriber > 0 then
        { e with selectedPower := some .securityBriber }
      else e
    else if x ≥ e.canvasWidth - 60 ∧ x ≤ e.canvasWidth - 60 + iconSize then
      { e with selectedPower := none }
    else { e with selectedPower := none }
  else { e with selectedPower := none }

/-- The passenger-click search at the top of `handleClick`: the first
active, gate-unreached, ability-holding passenger whose body or star disc
contains the click.  `Math.sqrt(dx² + dy²) ≤ 14` is translated to
`dx² + dy² ≤ 196`. -/
def findClickedPassenger (ps : List Passenger) (x y : ℚ) : Option ℕ :=
  ps.findIdx? (fun p =>
    p.isActive && !p.hasReachedGate && p.superPower.isSome &&
    (let bounds := p.getBounds
     let centerX := bounds.x + bounds.width / 2
     let starY := bounds.y - 15
     let clickedBody :=
       decide (x ≥ bounds.x) && decide (x ≤ bounds.x + bounds.width) &&
       decide (y ≥ bounds.y) && decide (y ≤ bounds.y + bounds.height)
     let clickedStar :=
       decide ((x - centerX) ^ 2 + (y - starY) ^ 2 ≤ 196)
     clickedBody || clickedStar))

/-- Whether `tryActivatePowerAtPosition`'s switch marks the obstacle as a
match for the passenger's power (src variant). -/
def shouldActivateFor (pw : Option SuperPower) (o : Obstacle) : Bool :=
  match pw with
  | some .bridge => decide (o.type = "gap")
  | some .doorBreaker => decide (o.type = "door")
  | some .securityBriber => decide (o.type = "security")
  | none => false

/-- `GameEngine.tryActivatePowerAtPosition` (src variant) on the passenger
at index `i`.  The loop body fires at the first obstacle within 100px of
the click whose type matches the power (`sqrt < 100` becomes
`dist² < 10000`); if the activation call fails (only possible when
`isUsingPower` is set, which the loop cannot change on failures), every
iteration fails alike and the engine is unchanged. -/
def GameEngine.tryActivatePowerAtPosition (e : GameEngine) (i : ℕ)
    (x y : ℚ) : GameEngine :=
  match e.passengers.get? i with
  | none => e
  | some p =>
    if p.superPower.isNone ∨ p.powerCooldown > 0 then e
    else
      match e.obstacles.find? (fun o =>
        decide ((x - (o.x + o.width / 2)) ^ 2 + (y - (o.y + o.height / 2)) ^ 2 < 10000) &&
        shouldActivateFor p.superPower o) with
      | none => e
      | some o =>
        if p.activateSuperPower.2 = true then
          let s := handleObstacleInteraction p.activateSuperPower.1 o e.obstacles e.bridges
          let p3 := { s.1 with superPower := none, color := "#2196F3" }
          { e with passengers := e.passengers.set i p3
                   obstacles := s.2.1
                   bridges := s.2.2
                   selectedPassenger := none }
        else e

/-- `GameEngine.handleClick` (src variant).  `now`/`rand` feed the
`startLevel` calls reachable from the Menu and LevelComplete branches. -/
def GameEngine.handleClick (e : GameEngine) (x y : ℚ) (now : ℚ)
    (rand : ℕ → ℚ) : GameEngine :=
  if e.gameState = GameState.MENU then e.startLevel 1 now rand
  else if e.gameState = GameState.LEVEL_COMPLETE then e.nextLevel now rand
  else if e.gameState = GameState.GAME_OVER ∨ e.gameState = GameState.VICTORY then
    { e with gameState := GameState.MENU }
  else if e.gameState ≠ GameState.PLAYING then e
  else
    let uiY := e.canvasHeight - e.uiHeight
    if y ≥ uiY then e.handleUIClick x y uiY
    else
      match findClickedPassenger e.passengers x y with
      | some i =>
        GameEngine.tryActivatePowerAtPosition { e with selectedPassenger := some i } i x y
      | none =>
        let fallThrough :=
          match e.selectedPassenger with
          | some j => e.tryActivatePowerAtPosition j x y
          | none => { e with selectedPassenger := none }
        match e.selectedPower with
        | some pw =>
          if e.powerCounts.get pw > 0 then
            match e.passengers.findIdx? (fun p =>
              p.isActive && !p.hasReachedGate && p.superPower.isNone &&
              decide ((p.posX - x) ^ 2 + (p.posY - y) ^ 2 < 2500)) with
            | some j =>
              let pj := e.passengers.getD j (Passenger.create ⟨0, 0⟩ none "")
              { e with
                passengers := e.passengers.set j
                  { pj with superPower := some pw, color := getColorForPower (some pw) }
                powerCounts := e.powerCounts.set pw (max 0 (e.powerCounts.get pw - 1))
                selectedPower := none }
            | none => fallThrough
          else fallThrough
        | none => fallThrough

/-- A sequence of `checkReachedGate` calls on one agent, returning the
final agent state and how many calls returned `true`. -/
def checkReachedGateSeq (p : Passenger) : List (Vec2 × ℚ) → Passenger × ℕ
  | [] => (p, 0)
  | c :: rest =>
    let s := p.checkReachedGate c.1 c.2
    let t := checkReachedGateSeq s.1 rest
    (t.1, (if s.2 then 1 else 0) + t.2)

/-- The number of active, gate-unreached agents (the `activePassengers`
filter of the win check). -/
def GameEngine.activeUnresolvedCount (e : GameEngine) : ℕ :=
  (e.passengers.filter (fun p => p.isActive && !p.hasReachedGate)).length

/-- The number of agents that reached the gate (the `reachedGate` count of
the win check). -/
def GameEngine.reachedCount (e : GameEngine) : ℕ :=
  (e.passengers.filter (fun p => p.hasReachedGate)).length

/-- "All agents are resolved": the spawn counter has reached the cap and
no agent is still active without having reached the gate. -/
def GameEngine.allResolved (e : GameEngine) : Prop :=
  e.passengersSpawned ≥ e.totalPassengers ∧ e.activeUnresolvedCount = 0

instance (e : GameEngine) : Decidable e.allResolved :=
  inferInstanceAs (Decidable (_ ∧ _))

/-- Agent `p` triggers no obstacle encounter of `handleObstacleCollisions`
against any obstacle of the list: for gaps, its leading foot lies outside
the gap band; for every other type, its bounds do not overlap the
obstacle. -/
def noObstacleContact (p : Passenger) (obstacles : List Obstacle) : Prop :=
  ∀ o ∈ obstacles,
    (o.type = "gap" →
      ¬(p.posX + (if p.direction = 1 then p.width else 0) ≥ o.x ∧
        p.posX + (if p.direction = 1 then p.width else 0) ≤ o.x + o.width ∧
        p.posY + p.height ≥ o.y ∧ p.posY + p.height ≤ o.y + o.height)) ∧
    (o.type ≠ "gap" → checkAABB p.getBounds ⟨o.x, o.y, o.width, o.height⟩ = false)

/-- Modelled from the spec: the pause-aware clock the engine is missing —
"the paused state must stop the effective elapsed-time clock … tracking
and subtracting cumulative paused duration".  The effective elapsed time
is the raw wall-clock elapsed time minus the cumulative paused
duration. -/
def pauseAdjustedElapsed (now levelStart pausedDuration : ℚ) : ℚ :=
  now - levelStart - pausedDuration

/-! Concrete instances used by witnesses and counterexamples. -/

/-- An agent holding an ability whose cooldown (1 s) is smaller than the
tick length used against it. -/
def pCooldown : Passenger :=
  { posX := 0, posY := 0, velX := 0, velY := 0, superPower := some .bridge,
    powerCooldown := 1, color := "#4CAF50", id := "p0" }

/-- An agent standing inside the gate rectangle that has not reached it
yet. -/
def pAtGate : Passenger :=
  { posX := 0, posY := 0, velX := 0, velY := 0, superPower := none,
    color := "#2196F3", id := "p1" }

/-- An agent that already reached the gate (deactivated, frozen). -/
def pReached : Passenger :=
  { posX := 90, posY := 10, velX := 0, velY := 0, superPower := none,
    isActive := false, hasReachedGate := true, color := "#2196F3", id := "p2" }

/-- A freshly constructed engine on a 300×700 canvas (the small width
makes the generator's main-path loop produce no platforms, keeping
concrete evaluation cheap). -/
def baseEngine : GameEngine :=
  { groundLevel := 580, canvasWidth := 300, canvasHeight := 700 }

/-- A playing engine whose spawn counter already reached the cap and with
no agents: every agent is resolved and none reached the gate. -/
def engineResolved : GameEngine :=
  { baseEngine with gameState := .PLAYING, passengersSpawned := 100 }

/-- A playing engine holding one already-reached agent whose bounds
overlap a vertical wall obstacle. -/
def engineReachedOnWall : GameEngine :=
  { baseEngine with
    gameState := .PLAYING
    passengersSpawned := 100
    passengers := [pReached]
    obstacles := [⟨"wall", 100, 0, 20, 60, "w0"⟩] }

/-- A playing engine holding one already-reached agent and no obstacles. -/
def engineReachedClear : GameEngine :=
  { baseEngine with
    gameState := .PLAYING
    passengersSpawned := 100
    passengers := [pReached] }

/-- A playing engine with an exhausted bridge inventory, the bridge power
selected, and one eligible (active, unreached, ability-less) agent. -/
def engineNoBridges : GameEngine :=
  { baseEngine with
    gameState := .PLAYING
    passengersSpawned := 100
    passengers := [pAtGate]
    selectedPower := some .bridge
    powerCounts := ⟨0, 8, 6⟩ }

/-- A vertical (non-platform) wall obstacle, as produced by the level
generator (20 wide, 60 high). -/
def wallObstacle : Obstacle := ⟨"wall", 100, 0, 20, 60, "wall_0"⟩

/-- The wall-collection entry corresponding to `wallObstacle`. -/
def wallBox : Box := ⟨100, 0, 20, 60⟩

/-- An agent holding the wall-breaking power, touching `wallObstacle`. -/
def pSmash : Passenger :=
  { posX := 90, posY := 0, velX := 0, velY := 0,
    superPower := some .doorBreaker, color := "#ff6b00", id := "smash" }

end Game

namespace DistGame

open Game

/-- `getColorForPower` from `dist/GameEngine.js` (the wall-smasher
variant): orange for the smashing power, blue otherwise. -/
def getColorForPower : Option SuperPower → String
  | some .doorBreaker => "#ff6b00"
  | _ => "#00aaff"

/-- `GameEngine.handleObstacleInteraction` from `dist/GameEngine.js`.
This variant lets a `doorBreaker` holder smash non-platform walls: the
obstacle is filtered out of both the obstacle list (by id) and the wall
list (by coordinates), and the power is removed from the passenger.  The
short-circuit `superPower === 'doorBreaker' && activateSuperPower() &&
!isPlatform` is reproduced exactly: the activation side effect sticks
even when the platform test then fails. -/
def handleObstacleInteraction (p : Passenger) (o : Obstacle)
    (obstacles : List Obstacle) (walls : List Box) :
    Passenger × List Obstacle × List Box :=
  if o.type = "wall" then
    let isPlatform := decide (o.width > o.height)
    if p.superPower = some .doorBreaker then
      let act := p.activateSuperPower
      if act.2 = true ∧ isPlatform = false then
        let p2 := act.1.stopUsingPower
        ({ p2 with superPower := none, color := getColorForPower none },
         obstacles.filter (fun ob => decide (ob.id ≠ o.id)),
         walls.filter (fun w => !(decide (w.x = o.x) && decide (w.y = o.y) &&
           decide (w.width = o.width) && decide (w.height = o.height))))
      else if isPlatform then (act.1, obstacles, walls)
      else (act.1.reverseDirection, obstacles, walls)
    else
      if isPlatform then (p, obstacles, walls)
      else (p.reverseDirection, obstacles, walls)
  else if o.type = "door" then
    if p.superPower = some .doorBreaker ∧ p.activateSuperPower.2 = true then
      let p2 := p.activateSuperPower.1.stopUsingPower
      ({ p2 with superPower := none, color := getColorForPower none },
       obstacles.filter (fun ob => decide (ob.id ≠ o.id)), walls)
    else (p.reverseDirection, obstacles, walls)
  else if o.type = "gap" then
    ({ p.reverseDirection with isFalling := true }, obstacles, walls)
  else if o.type = "security" then
    (p.reverseDirection, obstacles, walls)
  else if o.type = "securityGuard" then
    let p1 := p.reverseDirection
    ({ p1 with velX := p1.velX * 0.3 }, obstacles, walls)
  else (p, obstacles, walls)

end DistGame

/-! ## Theorems -/

namespace Game

/-- `activateSuperPower` on success: explicit result. -/
theorem activateSuperPower_success (p : Passenger)
    (hpw : p.superPower.isSome = true) (hcool : p.powerCooldown ≤ 0)
    (huse : p.isUsingPower = false) :
    p.activateSuperPower = ({ p with isUsingPower := true, powerCooldown := 2 }, true) := by
  have h1 : p.superPower.isNone = false := by
    cases h : p.superPower <;> simp [h] at hpw ⊢
  unfold Passenger.activateSuperPower
  simp [h1, huse, not_lt.mpr hcool]

/-- C5: `activateSuperPower` succeeds — returning `true`, setting
`isUsingPower` and starting the 2-second cooldown — exactly when the
agent holds an ability, its cooldown is exhausted (≤ 0) and it is not
already mid-activation; in every other case it returns `false` and
changes no state. -/
theorem activateSuperPower_contract (p : Passenger) :
    p.activateSuperPower.2 =
      (p.superPower.isSome && decide (p.powerCooldown ≤ 0) && !p.isUsingPower) ∧
    p.activateSuperPower.1 =
      (if p.activateSuperPower.2 = true
       then { p with isUsingPower := true, powerCooldown := 2 } else p) := by
  unfold Passenger.activateSuperPower
  by_cases hc : p.powerCooldown > 0
  · have hd : decide (p.powerCooldown ≤ 0) = false := by simp [not_le.mpr hc]
    cases hu : p.isUsingPower <;> cases hsp : p.superPower <;> simp [hc, hd, hu, hsp]
  · have hd : decide (p.powerCooldown ≤ 0) = true := by simp [not_lt.mp hc]
    cases hu : p.isUsingPower <;> cases hsp : p.superPower <;> simp [hc, hd, hu, hsp]

/-- C3 counterexample: an active agent with cooldown 1 ticked with
`dt = 2` ends with cooldown −1, not `max 0 (1 − 2) = 0`: the decrement is
not floored at zero. -/
theorem update_cooldown_goes_negative :
    (pCooldown.update 2 [] [] 1000 0).powerCooldown = -1 ∧
    (pCooldown.update 2 [] [] 1000 0).powerCooldown ≠
      max 0 (pCooldown.powerCooldown - 2) := by
  constructor
  · with_unfolding_all rfl
  · with_unfolding_all decide

/-- C3 amended: for every active, gate-unreached agent and every tick
with `dt ≥ 0`, the cooldown is decremented by `dt` when it was positive
and left unchanged otherwise; there is no floor at 0, so it can become
negative when `dt` exceeds the remaining cooldown. -/
theorem update_cooldown_decrement (p : Passenger) (deltaTime : ℚ)
    (platforms walls : List Box) (targetX targetY : ℚ)
    (hdt : 0 ≤ deltaTime) (hact : p.isActive = true)
    (hrg : p.hasReachedGate = false) :
    (p.update deltaTime platforms walls targetX targetY).powerCooldown =
      if 0 < p.powerCooldown then p.powerCooldown - deltaTime
      else p.powerCooldown := by
  unfold Passenger.update
  simp [hact, hrg]

/-- Evaluation of `update_cooldown_decrement` at `pCooldown`, `dt = 2`. -/
theorem update_cooldown_decrement_witness :
    (pCooldown.update 2 [] [] 1000 0).powerCooldown =
      if 0 < pCooldown.powerCooldown then pCooldown.powerCooldown - 2
      else pCooldown.powerCooldown :=
  update_cooldown_decrement pCooldown 2 [] [] 1000 0
    (by norm_num) (by with_unfolding_all rfl) (by with_unfolding_all rfl)

/-- A `checkReachedGate` call on an agent that already reached the gate
returns `false` and changes nothing. -/
theorem checkReachedGate_of_reached (p : Passenger) (g : Vec2) (w : ℚ)
    (h : p.hasReachedGate = true) : p.checkReachedGate g w = (p, false) := by
  unfold Passenger.checkReachedGate
  simp [h]

/-- A `checkReachedGate` call that returns `false` changes nothing. -/
theorem checkReachedGate_of_false (p : Passenger) (g : Vec2) (w : ℚ)
    (h : (p.checkReachedGate g w).2 = false) :
    (p.checkReachedGate g w).1 = p := by
  cases hr : p.hasReachedGate with
  | true => simp [Passenger.checkReachedGate, hr]
  | false =>
    by_cases hov : p.posX + p.width ≥ g.x ∧ p.posX ≤ g.x + w ∧
        p.posY + p.height ≥ g.y ∧ p.posY ≤ g.y + 50
    · simp [Passenger.checkReachedGate, hr, Passenger.getBounds, hov] at h
    · simp [Passenger.checkReachedGate, hr, Passenger.getBounds, hov]

/-- A `checkReachedGate` call that returns `true` marks the agent reached
and deactivates it. -/
theorem checkReachedGate_of_true (p : Passenger) (g : Vec2) (w : ℚ)
    (h : (p.checkReachedGate g w).2 = true) :
    (p.checkReachedGate g w).1.hasReachedGate = true ∧
    (p.checkReachedGate g w).1.isActive = false := by
  cases hr : p.hasReachedGate with
  | true => simp [Passenger.checkReachedGate, hr] at h
  | false =>
    by_cases hov : p.posX + p.width ≥ g.x ∧ p.posX ≤ g.x + w ∧
        p.posY + p.height ≥ g.y ∧ p.posY ≤ g.y + 50
    · simp [Passenger.checkReachedGate, hr, Passenger.getBounds, hov]
    · simp [Passenger.checkReachedGate, hr, Passenger.getBounds, hov] at h

/-- Once the agent is marked reached, no call in a sequence returns
`true`. -/
theorem checkReachedGateSeq_of_reached (p : Passenger)
    (calls : List (Vec2 × ℚ)) (h : p.hasReachedGate = true) :
    (checkReachedGateSeq p calls).2 = 0 := by
  induction calls generalizing p with
  | nil => rfl
  | cons c rest ih =>
    have h1 : p.checkReachedGate c.1 c.2 = (p, false) :=
      checkReachedGate_of_reached p c.1 c.2 h
    calc (checkReachedGateSeq p (c :: rest)).2
        = (if (p.checkReachedGate c.1 c.2).2 then 1 else 0) +
          (checkReachedGateSeq (p.checkReachedGate c.1 c.2).1 rest).2 := rfl
      _ = 0 := by rw [h1]; simpa using ih p h

/-- C4: `checkReachedGate` is one-shot and idempotent: across any
sequence of calls it returns `true` at most once; on an agent already
marked reached it returns `false` and changes nothing; and the call that
returns `true` is the one that sets `hasReachedGate` and flips
`isActive` to `false`. -/
theorem checkReachedGate_oneShot (p : Passenger) (calls : List (Vec2 × ℚ))
    (gate : Vec2) (gateWidth : ℚ) :
    (checkReachedGateSeq p calls).2 ≤ 1 ∧
    (p.hasReachedGate = true → p.checkReachedGate gate gateWidth = (p, false)) ∧
    ((p.checkReachedGate gate gateWidth).2 = true →
      (p.checkReachedGate gate gateWidth).1.hasReachedGate = true ∧
      (p.checkReachedGate gate gateWidth).1.isActive = false) := by
  refine ⟨?_, checkReachedGate_of_reached p gate gateWidth,
    checkReachedGate_of_true p gate gateWidth⟩
  induction calls generalizing p with
  | nil => simp [checkReachedGateSeq]
  | cons c rest ih =>
    have hstep : (checkReachedGateSeq p (c :: rest)).2 =
        (if (p.checkReachedGate c.1 c.2).2 then 1 else 0) +
          (checkReachedGateSeq (p.checkReachedGate c.1 c.2).1 rest).2 := rfl
    rw [hstep]
    cases hb : (p.checkReachedGate c.1 c.2).2 with
    | false =>
      rw [checkReachedGate_of_false p c.1 c.2 hb]
      simpa using ih p
    | true =>
      have hr := (checkReachedGate_of_true p c.1 c.2 hb).1
      simp [hb, checkReachedGateSeq_of_reached _ rest hr]

/-- Evaluation of `checkReachedGate_oneShot`: the reached agent
`pReached` is untouched by a further call, and the call on `pAtGate`
that returns `true` reaches-and-deactivates it. -/
theorem checkReachedGate_oneShot_witness :
    pReached.checkReachedGate ⟨80, 0⟩ 100 = (pReached, false) ∧
    (pAtGate.checkReachedGate ⟨0, 0⟩ 100).1.hasReachedGate = true ∧
    (pAtGate.checkReachedGate ⟨0, 0⟩ 100).1.isActive = false := by
  refine ⟨(checkReachedGate_oneShot pReached [] ⟨80, 0⟩ 100).2.1 (by with_unfolding_all rfl),
    (checkReachedGate_oneShot pAtGate [] ⟨0, 0⟩ 100).2.2 (by with_unfolding_all rfl)⟩

/-- `activateSuperPower` never moves the agent. -/
theorem activateSuperPower_posX (p : Passenger) :
    p.activateSuperPower.1.posX = p.posX := by
  unfold Passenger.activateSuperPower; split_ifs <;> rfl

/-- `activateSuperPower` never moves the agent. -/
theorem activateSuperPower_posY (p : Passenger) :
    p.activateSuperPower.1.posY = p.posY := by
  unfold Passenger.activateSuperPower; split_ifs <;> rfl

/-- `activateSuperPower` does not change which ability is held. -/
theorem activateSuperPower_superPower (p : Passenger) :
    p.activateSuperPower.1.superPower = p.superPower := by
  unfold Passenger.activateSuperPower; split_ifs <;> rfl

/-- `activateSuperPower` does not change activity. -/
theorem activateSuperPower_isActive (p : Passenger) :
    p.activateSuperPower.1.isActive = p.isActive := by
  unfold Passenger.activateSuperPower; split_ifs <;> rfl

/-- `activateSuperPower` does not change gate status. -/
theorem activateSuperPower_hasReachedGate (p : Passenger) :
    p.activateSuperPower.1.hasReachedGate = p.hasReachedGate := by
  unfold Passenger.activateSuperPower; split_ifs <;> rfl

/-- `handleObstacleInteraction` only appends bridges, only removes
obstacles, and never changes the agent's position, held ability,
activity, or gate status. -/
theorem handleObstacleInteraction_effects (p : Passenger) (o : Obstacle)
    (obs : List Obstacle) (brs : List Bridge) :
    (∃ t, (handleObstacleInteraction p o obs brs).2.2 = brs ++ t) ∧
    (handleObstacleInteraction p o obs brs).2.1 ⊆ obs ∧
    (handleObstacleInteraction p o obs brs).1.posX = p.posX ∧
    (handleObstacleInteraction p o obs brs).1.posY = p.posY ∧
    (handleObstacleInteraction p o obs brs).1.superPower = p.superPower ∧
    (handleObstacleInteraction p o obs brs).1.isActive = p.isActive ∧
    (handleObstacleInteraction p o obs brs).1.hasReachedGate = p.hasReachedGate := by
  simp only [handleObstacleInteraction]
  split_ifs <;>
    refine ⟨by first | exact ⟨_, rfl⟩ | exact ⟨[], (List.append_nil brs).symm⟩,
      by first | exact fun _ h => h | exact fun a ha => (List.mem_filter.mp ha).1,
      ?_, ?_, ?_, ?_, ?_⟩ <;>
    simp [Passenger.reverseDirection, activateSuperPower_posX,
      activateSuperPower_posY, activateSuperPower_superPower,
      activateSuperPower_isActive, activateSuperPower_hasReachedGate]

/-- One obstacle step of the collision loop has the same effect bounds as
the interaction it may invoke. -/
theorem collideStep_effects (bounds : Box) (o : Obstacle) (pc : Passenger)
    (obs : List Obstacle) (brs : List Bridge) :
    (∃ t, (collideStep bounds o pc obs brs).2.2 = brs ++ t) ∧
    (collideStep bounds o pc obs brs).2.1 ⊆ obs ∧
    (collideStep bounds o pc obs brs).1.posX = pc.posX ∧
    (collideStep bounds o pc obs brs).1.posY = pc.posY ∧
    (collideStep bounds o pc obs brs).1.superPower = pc.superPower ∧
    (collideStep bounds o pc obs brs).1.isActive = pc.isActive ∧
    (collideStep bounds o pc obs brs).1.hasReachedGate = pc.hasReachedGate := by
  simp only [collideStep]
  split_ifs <;>
    first
      | exact handleObstacleInteraction_effects pc o obs brs
      | exact ⟨⟨[], (List.append_nil brs).symm⟩, fun _ h => h, rfl, rfl, rfl, rfl, rfl⟩

/-- The whole collision loop only appends bridges, only removes
obstacles, and preserves the agent's position, ability, activity, and
gate status. -/
theorem collideLoop_effects (bounds : Box) (snapshot : List Obstacle)
    (pc : Passenger) (obs : List Obstacle) (brs : List Bridge) :
    (∃ t, (collideLoop bounds snapshot pc obs brs).2.2 = brs ++ t) ∧
    (collideLoop bounds snapshot pc obs brs).2.1 ⊆ obs ∧
    (collideLoop bounds snapshot pc obs brs).1.posX = pc.posX ∧
    (collideLoop bounds snapshot pc obs brs).1.posY = pc.posY ∧
    (collideLoop bounds snapshot pc obs brs).1.superPower = pc.superPower ∧
    (collideLoop bounds snapshot pc obs brs).1.isActive = pc.isActive ∧
    (collideLoop bounds snapshot pc obs brs).1.hasReachedGate = pc.hasReachedGate := by
  induction snapshot generalizing pc obs brs with
  | nil =>
    exact ⟨⟨[], (List.append_nil brs).symm⟩, fun _ h => h, rfl, rfl, rfl, rfl, rfl⟩
  | cons o rest ih =>
    have hstep := collideStep_effects bounds o pc obs brs
    have hloop := ih (collideStep bounds o pc obs brs).1
      (collideStep bounds o pc obs brs).2.1 (collideStep bounds o pc obs brs).2.2
    have heq : collideLoop bounds (o :: rest) pc obs brs =
        collideLoop bounds rest (collideStep bounds o pc obs brs).1
          (collideStep bounds o pc obs brs).2.1 (collideStep bounds o pc obs brs).2.2 := rfl
    rw [heq]
    obtain ⟨⟨t1, ht1⟩, hsub1, hx1, hy1, hsp1, ha1, hg1⟩ := hstep
    obtain ⟨⟨t2, ht2⟩, hsub2, hx2, hy2, hsp2, ha2, hg2⟩ := hloop
    exact ⟨⟨t1 ++ t2, by rw [ht2, ht1, List.append_assoc]⟩,
      fun a ha => hsub1 (hsub2 ha),
      hx2.trans hx1, hy2.trans hy1, hsp2.trans hsp1, ha2.trans ha1, hg2.trans hg1⟩

/-- An agent that reached the gate is skipped by the physics update. -/
theorem Passenger.update_of_reached (p : Passenger) (dt : ℚ)
    (plats walls : List Box) (tx ty : ℚ) (h : p.hasReachedGate = true) :
    p.update dt plats walls tx ty = p := by
  unfold Passenger.update; simp [h]

/-- An agent triggering no obstacle encounter passes through the
collision loop untouched, together with the obstacle and bridge lists. -/
theorem collideLoop_of_noContact (p : Passenger) (snapshot : List Obstacle)
    (obs : List Obstacle) (brs : List Bridge)
    (h : noObstacleContact p snapshot) :
    collideLoop p.getBounds snapshot p obs brs = (p, obs, brs) := by
  induction snapshot with
  | nil => rfl
  | cons o rest ih =>
    have ho := h o (List.mem_cons_self o rest)
    have hrest : noObstacleContact p rest := fun o' ho' => h o' (List.mem_cons_of_mem o ho')
    have hstep : collideStep p.getBounds o p obs brs = (p, obs, brs) := by
      by_cases hg : o.type = "gap"
      · simp only [collideStep, hg, eq_self_iff_true, if_true]
        rw [if_neg (ho.1 hg)]
      · simp only [collideStep, if_neg hg]
        rw [ho.2 hg]
        simp
    have heq : collideLoop p.getBounds (o :: rest) p obs brs =
        collideLoop p.getBounds rest (collideStep p.getBounds o p obs brs).1
          (collideStep p.getBounds o p obs brs).2.1
          (collideStep p.getBounds o p obs brs).2.2 := rfl
    rw [heq, hstep]
    exact ih hrest

/-- The per-passenger tick only appends bridges and only removes
obstacles. -/
theorem tickPassenger_effects (platforms walls : List Box) (gate : Vec2)
    (gw dt : ℚ) (p : Passenger) (obs : List Obstacle) (brs : List Bridge) :
    (∃ t, (tickPassenger platforms walls gate gw dt p obs brs).2.2 = brs ++ t) ∧
    (tickPassenger platforms walls gate gw dt p obs brs).2.1 ⊆ obs := by
  have h := collideLoop_effects (p.update dt platforms walls gate.x gate.y).getBounds
    obs (p.update dt platforms walls gate.x gate.y) obs brs
  exact ⟨h.1, h.2.1⟩

/-- The per-passenger tick of an agent that already reached the gate:
bridges only grow, obstacles only shrink, and the agent keeps its
position, ability, activity and reached flag; if it additionally
triggers no obstacle encounter, nothing at all changes. -/
theorem tickPassenger_of_reached (platforms walls : List Box) (gate : Vec2)
    (gw dt : ℚ) (p : Passenger) (obs : List Obstacle) (brs : List Bridge)
    (h : p.hasReachedGate = true) :
    ((tickPassenger platforms walls gate gw dt p obs brs).1.posX = p.posX ∧
     (tickPassenger platforms walls gate gw dt p obs brs).1.posY = p.posY ∧
     (tickPassenger platforms walls gate gw dt p obs brs).1.superPower = p.superPower ∧
     (tickPassenger platforms walls gate gw dt p obs brs).1.isActive = p.isActive ∧
     (tickPassenger platforms walls gate gw dt p obs brs).1.hasReachedGate = true) ∧
    (noObstacleContact p obs →
      tickPassenger platforms walls gate gw dt p obs brs = (p, obs, brs)) := by
  have hupd : p.update dt platforms walls gate.x gate.y = p :=
    Passenger.update_of_reached p dt platforms walls gate.x gate.y h
  have hcoll := collideLoop_effects p.getBounds obs p obs brs
  obtain ⟨_, _, hx, hy, hsp, ha, hg⟩ := hcoll
  have hreach : (collideLoop p.getBounds obs p obs brs).1.hasReachedGate = true := by
    rw [hg]; exact h
  have hgate := checkReachedGate_of_reached
    (collideLoop p.getBounds obs p obs brs).1 gate gw hreach
  have heq : tickPassenger platforms walls gate gw dt p obs brs =
      (((collideLoop p.getBounds obs p obs brs).1.checkReachedGate gate gw).1,
        (collideLoop p.getBounds obs p obs brs).2.1,
        (collideLoop p.getBounds obs p obs brs).2.2) := by
    unfold tickPassenger handleObstacleCollisions
    rw [hupd]
  constructor
  · rw [heq, hgate]
    exact ⟨hx, hy, hsp, ha, hreach⟩
  · intro hnc
    have hloop := collideLoop_of_noContact p obs obs brs hnc
    rw [heq, hloop]
    simp [checkReachedGate_of_reached p gate gw h]

/-- The passenger loop only appends bridges and only removes obstacles. -/
theorem tickAll_effects (platforms walls : List Box) (gate : Vec2)
    (gw dt : ℚ) (ps : List Passenger) (obs : List Obstacle)
    (brs : List Bridge) :
    (∃ t, (tickAll platforms walls gate gw dt ps obs brs).2.2 = brs ++ t) ∧
    (tickAll platforms walls gate gw dt ps obs brs).2.1 ⊆ obs := by
  induction ps generalizing obs brs with
  | nil => exact ⟨⟨[], (List.append_nil brs).symm⟩, fun _ h => h⟩
  | cons p rest ih =>
    have hstep := tickPassenger_effects platforms walls gate gw dt p obs brs
    have hrest := ih (tickPassenger platforms walls gate gw dt p obs brs).2.1
      (tickPassenger platforms walls gate gw dt p obs brs).2.2
    obtain ⟨⟨t1, ht1⟩, hsub1⟩ := hstep
    obtain ⟨⟨t2, ht2⟩, hsub2⟩ := hrest
    have heq2 : (tickAll platforms walls gate gw dt (p :: rest) obs brs).2.2 =
        (tickAll platforms walls gate gw dt rest
          (tickPassenger platforms walls gate gw dt p obs brs).2.1
          (tickPassenger platforms walls gate gw dt p obs brs).2.2).2.2 := rfl
    have heq1 : (tickAll platforms walls gate gw dt (p :: rest) obs brs).2.1 =
        (tickAll platforms walls gate gw dt rest
          (tickPassenger platforms walls gate gw dt p obs brs).2.1
          (tickPassenger platforms walls gate gw dt p obs brs).2.2).2.1 := rfl
    refine ⟨⟨t1 ++ t2, ?_⟩, ?_⟩
    · rw [heq2, ht2, ht1, List.append_assoc]
    · intro a ha
      rw [heq1] at ha
      exact hsub1 (hsub2 ha)

/-- The `i`-th output of the passenger loop is the tick of the `i`-th
input against some obstacle list included in the starting one. -/
theorem tickAll_get (platforms walls : List Box) (gate : Vec2) (gw dt : ℚ)
    (ps : List Passenger) (obs : List Obstacle) (brs : List Bridge)
    (i : ℕ) (p : Passenger) (hp : ps.get? i = some p) :
    ∃ obs' brs', obs' ⊆ obs ∧
      (tickAll platforms walls gate gw dt ps obs brs).1.get? i =
        some (tickPassenger platforms walls gate gw dt p obs' brs').1 := by
  induction ps generalizing obs brs i with
  | nil => simp at hp
  | cons q rest ih =>
    cases i with
    | zero =>
      simp only [List.get?_cons_zero, Option.some.injEq] at hp
      subst hp
      exact ⟨obs, brs, fun _ h => h, rfl⟩
    | succ i =>
      simp only [List.get?_cons_succ] at hp
      obtain ⟨obs', brs', hsub, hget⟩ := ih
        (tickPassenger platforms walls gate gw dt q obs brs).2.1
        (tickPassenger platforms walls gate gw dt q obs brs).2.2 i hp
      have hsub0 := (tickPassenger_effects platforms walls gate gw dt q obs brs).2
      exact ⟨obs', brs', fun a ha => hsub0 (hsub ha), hget⟩

/-- Rebuilding the platform/wall classification changes nothing but the
`platforms` and `walls` views. -/
theorem buildPlatformsAndWalls_fields (e : GameEngine) :
    e.buildPlatformsAndWalls.gameState = e.gameState ∧
    e.buildPlatformsAndWalls.passengers = e.passengers ∧
    e.buildPlatformsAndWalls.bridges = e.bridges ∧
    e.buildPlatformsAndWalls.obstacles = e.obstacles ∧
    e.buildPlatformsAndWalls.passengersSpawned = e.passengersSpawned ∧
    e.buildPlatformsAndWalls.currentLevel = e.currentLevel ∧
    e.buildPlatformsAndWalls.powerCounts = e.powerCounts :=
  ⟨rfl, rfl, rfl, rfl, rfl, rfl, rfl⟩

/-- The spawn section can only append one passenger and bump the spawn
counter and timer. -/
theorem updateSpawn_fields (e : GameEngine) (r dt : ℚ) :
    (e.updateSpawn r dt).gameState = e.gameState ∧
    (e.updateSpawn r dt).currentLevel = e.currentLevel ∧
    (e.updateSpawn r dt).totalPassengers = e.totalPassengers ∧
    (e.updateSpawn r dt).bridges = e.bridges ∧
    (e.updateSpawn r dt).obstacles = e.obstacles ∧
    (e.updateSpawn r dt).powerCounts = e.powerCounts ∧
    (∃ t, (e.updateSpawn r dt).passengers = e.passengers ++ t) := by
  simp only [GameEngine.updateSpawn, GameEngine.spawnPassenger]
  cases hl : e.levelConfig <;> split_ifs <;>
    exact ⟨rfl, rfl, rfl, rfl, rfl, rfl,
      by first | exact ⟨_, rfl⟩ | exact ⟨[], (List.append_nil _).symm⟩⟩

/-- The physics section does not touch the game state, counters, level
number or inventory. -/
theorem updatePhysics_fields (e : GameEngine) (dt : ℚ) :
    (e.updatePhysics dt).gameState = e.gameState ∧
    (e.updatePhysics dt).currentLevel = e.currentLevel ∧
    (e.updatePhysics dt).totalPassengers = e.totalPassengers ∧
    (e.updatePhysics dt).passengersSpawned = e.passengersSpawned ∧
    (e.updatePhysics dt).powerCounts = e.powerCounts :=
  ⟨rfl, rfl, rfl, rfl, rfl⟩

/-- The physics section only appends bridges. -/
theorem updatePhysics_bridges (e : GameEngine) (dt : ℚ) :
    ∃ t, (e.updatePhysics dt).bridges = e.bridges ++ t :=
  (tickAll_effects e.buildPlatformsAndWalls.platforms
    e.buildPlatformsAndWalls.walls e.buildPlatformsAndWalls.checkInGate
    e.buildPlatformsAndWalls.gateWidth dt e.buildPlatformsAndWalls.passengers
    e.buildPlatformsAndWalls.obstacles e.buildPlatformsAndWalls.bridges).1

/-- The `i`-th passenger after the physics section is the tick of the
`i`-th passenger before it, against some sub-list of the engine's
obstacles. -/
theorem updatePhysics_passenger_get (e : GameEngine) (dt : ℚ) (i : ℕ)
    (p : Passenger) (hp : e.passengers.get? i = some p) :
    ∃ obs' brs', obs' ⊆ e.obstacles ∧
      (e.updatePhysics dt).passengers.get? i =
        some (tickPassenger e.buildPlatformsAndWalls.platforms
          e.buildPlatformsAndWalls.walls e.checkInGate e.gateWidth dt
          p obs' brs').1 :=
  tickAll_get e.buildPlatformsAndWalls.platforms e.buildPlatformsAndWalls.walls
    e.checkInGate e.gateWidth dt e.passengers e.obstacles e.bridges i p hp

/-- The win check only writes `gameState`. -/
theorem updateWinCheck_fields (e : GameEngine) :
    e.updateWinCheck.passengers = e.passengers ∧
    e.updateWinCheck.passengersSpawned = e.passengersSpawned ∧
    e.updateWinCheck.currentLevel = e.currentLevel ∧
    e.updateWinCheck.totalPassengers = e.totalPassengers ∧
    e.updateWinCheck.bridges = e.bridges ∧
    e.updateWinCheck.obstacles = e.obstacles ∧
    e.updateWinCheck.powerCounts = e.powerCounts := by
  simp only [GameEngine.updateWinCheck]
  split_ifs <;> exact ⟨rfl, rfl, rfl, rfl, rfl, rfl, rfl⟩

/-- Explicit description of the state transition performed by the win
check. -/
theorem updateWinCheck_gameState (e : GameEngine) :
    e.updateWinCheck.gameState =
      (if e.allResolved then
        (if e.reachedCount ≥ 50 then
          (if e.currentLevel ≥ 10 then GameState.VICTORY
           else GameState.LEVEL_COMPLETE)
         else GameState.GAME_OVER)
       else e.gameState) := by
  simp only [GameEngine.updateWinCheck, GameEngine.allResolved,
    GameEngine.activeUnresolvedCount, GameEngine.reachedCount]
  split_ifs <;> rfl

/-- While Playing and before the timeout, `update` is spawn, physics and
win check in sequence. -/
theorem update_of_playing (e : GameEngine) (now r dt : ℚ)
    (hplay : e.gameState = GameState.PLAYING)
    (htime : now - e.levelStartTime < e.levelTimeLimit) :
    e.update now r dt = ((e.updateSpawn r dt).updatePhysics dt).updateWinCheck := by
  have h1 : (e.gameState ≠ GameState.PLAYING) = False := by simp [hplay]
  have h2 : (now - e.levelStartTime ≥ e.levelTimeLimit) = False := by
    simp [not_le.mpr htime]
  simp only [GameEngine.update, h1, h2, if_false]

/-- In every state other than Playing, `update` is the identity. -/
theorem update_of_not_playing (e : GameEngine) (now r dt : ℚ)
    (h : e.gameState ≠ GameState.PLAYING) : e.update now r dt = e := by
  have h1 : (e.gameState ≠ GameState.PLAYING) = True := by simp [h]
  simp only [GameEngine.update, h1, if_true]

/-- At or past the time limit, `update` only flips the state to
GameOver. -/
theorem update_of_timeout (e : GameEngine) (now r dt : ℚ)
    (hplay : e.gameState = GameState.PLAYING)
    (htime : now - e.levelStartTime ≥ e.levelTimeLimit) :
    e.update now r dt = { e with gameState := GameState.GAME_OVER } := by
  have h1 : (e.gameState ≠ GameState.PLAYING) = False := by simp [hplay]
  have h2 : (now - e.levelStartTime ≥ e.levelTimeLimit) = True := by simp [htime]
  simp only [GameEngine.update, h1, h2, if_false, if_true]

/-- `handleUIClick` only writes `selectedPower`, and never selects an
ability whose remaining count is not positive. -/
theorem handleUIClick_fields (e : GameEngine) (x y uiY : ℚ) :
    (e.handleUIClick x y uiY).passengers = e.passengers ∧
    (e.handleUIClick x y uiY).powerCounts = e.powerCounts ∧
    (e.handleUIClick x y uiY).bridges = e.bridges ∧
    ((e.handleUIClick x y uiY).selectedPower = none ∨
     (∃ k, (e.handleUIClick x y uiY).selectedPower = some k ∧
        e.powerCounts.get k > 0) ∨
     (e.handleUIClick x y uiY).selectedPower = e.selectedPower) := by
  simp only [GameEngine.handleUIClick]
  split_ifs <;>
    refine ⟨rfl, rfl, rfl, ?_⟩ <;>
    first
      | exact Or.inl rfl
      | exact Or.inr (Or.inr rfl)
      | (exact Or.inr (Or.inl ⟨_, rfl, by assumption⟩))

/-- Overwriting one list entry with an ability-less agent keeps every
ability-less entry ability-less. -/
theorem set_get_superPower_none (l : List Passenger) (i j : ℕ)
    (p3 q : Passenger) (hq : l.get? j = some q) (hqn : q.superPower = none)
    (hp3 : p3.superPower = none) :
    ∃ q2, (l.set i p3).get? j = some q2 ∧ q2.superPower = none := by
  by_cases hij : i = j
  · subst hij
    exact ⟨p3, by rw [List.get?_set_eq, hq]; rfl, hp3⟩
  · exact ⟨q, by rw [List.get?_set_ne _ _ hij]; exact hq, hqn⟩

/-- `tryActivatePowerAtPosition` only appends bridges, never touches the
inventory or the power selection, and never gives an ability to an
ability-less agent. -/
theorem tryActivate_effects (e : GameEngine) (i : ℕ) (x y : ℚ) :
    (∃ t, (e.tryActivatePowerAtPosition i x y).bridges = e.bridges ++ t) ∧
    (e.tryActivatePowerAtPosition i x y).powerCounts = e.powerCounts ∧
    (e.tryActivatePowerAtPosition i x y).selectedPower = e.selectedPower ∧
    (e.tryActivatePowerAtPosition i x y).gameState = e.gameState ∧
    (∀ j q, e.passengers.get? j = some q → q.superPower = none →
      ∃ q2, (e.tryActivatePowerAtPosition i x y).passengers.get? j = some q2 ∧
        q2.superPower = none) := by
  unfold GameEngine.tryActivatePowerAtPosition
  split
  next =>
    exact ⟨⟨[], (List.append_nil _).symm⟩, rfl, rfl, rfl,
      fun j q hj hq => ⟨q, hj, hq⟩⟩
  next p hgi =>
    split_ifs with hguard hact
    · exact ⟨⟨[], (List.append_nil _).symm⟩, rfl, rfl, rfl,
        fun j q hj hq => ⟨q, hj, hq⟩⟩
    · split
      next =>
        exact ⟨⟨[], (List.append_nil _).symm⟩, rfl, rfl, rfl,
          fun j q hj hq => ⟨q, hj, hq⟩⟩
      next o hfo =>
        exact ⟨(handleObstacleInteraction_effects _ _ _ _).1, rfl, rfl, rfl,
          fun j q hj hq => set_get_superPower_none _ i j _ q hj hq rfl⟩
    · split
      next =>
        exact ⟨⟨[], (List.append_nil _).symm⟩, rfl, rfl, rfl,
          fun j q hj hq => ⟨q, hj, hq⟩⟩
      next o hfo =>
        exact ⟨⟨[], (List.append_nil _).symm⟩, rfl, rfl, rfl,
          fun j q hj hq => ⟨q, hj, hq⟩⟩

/-- A `get?` hit implies the index is in range. -/
theorem get?_lt_length {α : Type} (l : List α) (i : ℕ) (a : α)
    (h : l.get? i = some a) : i < l.length := by
  by_contra hcon
  rw [List.get?_eq_none.mpr (not_lt.mp hcon)] at h
  exact Option.noConfusion h

/-- C7: bridges are monotonically additive within a level attempt: every
engine tick extends the bridge list, and so does every click handled
while Playing (`handleClick` reaches `startLevel`, which clears bridges,
only from the Menu and LevelComplete branches, never while Playing). -/
theorem bridges_monotone (e : GameEngine) (now r deltaTime x y : ℚ)
    (rand : ℕ → ℚ) :
    (∃ t, (e.update now r deltaTime).bridges = e.bridges ++ t) ∧
    (e.gameState = GameState.PLAYING →
      ∃ t, (e.handleClick x y now rand).bridges = e.bridges ++ t) := by
  constructor
  · by_cases hplay : e.gameState = GameState.PLAYING
    · by_cases htime : now - e.levelStartTime ≥ e.levelTimeLimit
      · rw [update_of_timeout e now r deltaTime hplay htime]
        exact ⟨[], (List.append_nil _).symm⟩
      · rw [update_of_playing e now r deltaTime hplay (not_le.mp htime)]
        obtain ⟨t1, ht1⟩ := updatePhysics_bridges (e.updateSpawn r deltaTime) deltaTime
        refine ⟨t1, ?_⟩
        rw [(updateWinCheck_fields _).2.2.2.2.1, ht1,
          (updateSpawn_fields e r deltaTime).2.2.2.1]
    · rw [update_of_not_playing e now r deltaTime hplay]
      exact ⟨[], (List.append_nil _).symm⟩
  · intro hplay
    have hne1 : (e.gameState = GameState.MENU) = False := by simp [hplay]
    have hne2 : (e.gameState = GameState.LEVEL_COMPLETE) = False := by simp [hplay]
    have hne3 : (e.gameState = GameState.GAME_OVER ∨
        e.gameState = GameState.VICTORY) = False := by simp [hplay]
    have hne4 : (e.gameState ≠ GameState.PLAYING) = False := by simp [hplay]
    simp only [GameEngine.handleClick, hne1, hne2, hne3, hne4, if_false]
    by_cases hui : y ≥ e.canvasHeight - e.uiHeight
    · rw [if_pos hui, (handleUIClick_fields e x y _).2.2.1]
      exact ⟨[], (List.append_nil _).symm⟩
    · rw [if_neg hui]
      split
      next i hfc =>
        exact (tryActivate_effects { e with selectedPassenger := some i } i x y).1
      next hfc =>
        split
        next pw hsp =>
          split_ifs with hcnt
          · split
            next j hj => exact ⟨[], (List.append_nil _).symm⟩
            next hj =>
              split
              next k hk => exact (tryActivate_effects e k x y).1
              next hk => exact ⟨[], (List.append_nil _).symm⟩
          · split
            next k hk => exact (tryActivate_effects e k x y).1
            next hk => exact ⟨[], (List.append_nil _).symm⟩
        next hsp =>
          split
          next k hk => exact (tryActivate_effects e k x y).1
          next hk => exact ⟨[], (List.append_nil _).symm⟩

/-- Evaluation of `bridges_monotone` on a Playing engine. -/
theorem bridges_monotone_witness :
    ∃ t, (engineResolved.handleClick 1 1 0 (fun _ => 1/2)).bridges =
      engineResolved.bridges ++ t :=
  (bridges_monotone engineResolved 0 0 0 1 1 (fun _ => 1/2)).2 rfl

/-- C8 counterexample: a reached (frozen) agent overlapping a vertical
wall obstacle has its direction reversed by the next engine tick — the
engine's obstacle-collision handling is not skipped for reached
agents. -/
theorem reached_agent_direction_reversed :
    pReached.hasReachedGate = true ∧ pReached.direction = 1 ∧
    ((engineReachedOnWall.update 1 (9/10) (1/60)).passengers.map
      (fun p => p.direction)) = [-1] := by
  refine ⟨rfl, rfl, ?_⟩
  with_unfolding_all rfl

/-- C8 amended: after an engine tick, an agent that already reached the
gate keeps its position, held ability, reached flag and activity — but it
is not excluded from obstacle interaction: only when it triggers no
obstacle encounter (no bounds overlap with a non-gap obstacle, leading
foot over no gap) is it left entirely unchanged; on contact its
direction, velocity, falling flag or cooldown state may still change. -/
theorem reached_passenger_frozen (e : GameEngine) (now r deltaTime : ℚ)
    (i : ℕ) (p : Passenger) (hi : e.passengers.get? i = some p)
    (hreach : p.hasReachedGate = true) :
    ∃ q, (e.update now r deltaTime).passengers.get? i = some q ∧
      q.posX = p.posX ∧ q.posY = p.posY ∧ q.superPower = p.superPower ∧
      q.hasReachedGate = true ∧ q.isActive = p.isActive ∧
      (noObstacleContact p e.obstacles → q = p) := by
  by_cases hplay : e.gameState = GameState.PLAYING
  · by_cases htime : now - e.levelStartTime ≥ e.levelTimeLimit
    · rw [update_of_timeout e now r deltaTime hplay htime]
      exact ⟨p, hi, rfl, rfl, rfl, hreach, rfl, fun _ => rfl⟩
    · rw [update_of_playing e now r deltaTime hplay (not_le.mp htime)]
      obtain ⟨t0, ht0⟩ := (updateSpawn_fields e r deltaTime).2.2.2.2.2.2
      have hilen : i < e.passengers.length := get?_lt_length _ _ _ hi
      have hi1 : (e.updateSpawn r deltaTime).passengers.get? i = some p := by
        rw [ht0, List.get?_append hilen, hi]
      obtain ⟨obs', brs', hsub, hget⟩ :=
        updatePhysics_passenger_get (e.updateSpawn r deltaTime) deltaTime i p hi1
      have hobs1 : (e.updateSpawn r deltaTime).obstacles = e.obstacles :=
        (updateSpawn_fields e r deltaTime).2.2.2.2.1
      have hwc := (updateWinCheck_fields
        ((e.updateSpawn r deltaTime).updatePhysics deltaTime)).1
      have htick := tickPassenger_of_reached
        (e.updateSpawn r deltaTime).buildPlatformsAndWalls.platforms
        (e.updateSpawn r deltaTime).buildPlatformsAndWalls.walls
        (e.updateSpawn r deltaTime).checkInGate
        (e.updateSpawn r deltaTime).gateWidth deltaTime p obs' brs' hreach
      refine ⟨_, by rw [hwc]; exact hget, htick.1.1, htick.1.2.1,
          htick.1.2.2.1, htick.1.2.2.2.2, htick.1.2.2.2.1, ?_⟩
      intro hnc
      have hnc' : noObstacleContact p obs' := fun o ho => hnc o (hobs1 ▸ hsub ho)
      rw [htick.2 hnc']
  · rw [update_of_not_playing e now r deltaTime hplay]
    exact ⟨p, hi, rfl, rfl, rfl, hreach, rfl, fun _ => rfl⟩

/-- Evaluation of `reached_passenger_frozen` on a contact-free reached
agent: the tick changes nothing about it. -/
theorem reached_passenger_frozen_witness :
    ∃ q, (engineReachedClear.update 1 0 (1/60)).passengers.get? 0 = some q ∧
      q = pReached := by
  obtain ⟨q, hq, _, _, _, _, _, hnc⟩ :=
    reached_passenger_frozen engineReachedClear 1 0 (1/60) 0 pReached rfl rfl
  refine ⟨q, hq, hnc ?_⟩
  intro o ho
  simp [engineReachedClear, baseEngine] at ho

/-- C10: every `startLevel` call — level advance and restart alike —
resets the manual inventory to 10 bridge, 8 doorBreaker and
6 securityBriber uses, for every prior engine state, level number and
random draw. -/
theorem startLevel_resets_inventory (e : GameEngine) (level : ℕ) (now : ℚ)
    (rand : ℕ → ℚ) :
    (e.startLevel level now rand).powerCounts.get .bridge = 10 ∧
    (e.startLevel level now rand).powerCounts.get .doorBreaker = 8 ∧
    (e.startLevel level now rand).powerCounts.get .securityBriber = 6 :=
  ⟨rfl, rfl, rfl⟩

/-- Reading one inventory entry after writing another. -/
theorem PowerCounts.get_set (c : PowerCounts) (k j : SuperPower) (n : ℤ) :
    (c.set k n).get j = if j = k then n else c.get j := by
  cases k <;> cases j <;> simp [PowerCounts.get, PowerCounts.set]

/-- C6 counterexample: at a tick where the raw elapsed time has reached
the 300 s limit, a Playing engine transitions to GameOver although no
agent is resolved (spawn counter 0, far below the cap of 100): the
timeout path breaks the claimed "GameOver only if all agents are
resolved". -/
theorem gameOver_without_resolution :
    ({ baseEngine with gameState := GameState.PLAYING }.update 300 0 (1/60)).gameState
        = GameState.GAME_OVER ∧
    ({ baseEngine with gameState := GameState.PLAYING }.update 300 0 (1/60)).passengersSpawned
        = 0 ∧
    ({ baseEngine with gameState := GameState.PLAYING }.update 300 0 (1/60)).totalPassengers
        = 100 := by
  refine ⟨?_, ?_, ?_⟩ <;> with_unfolding_all rfl

/-- C6 amended: apart from the timeout path (raw elapsed wall time
≥ 300 s, which transitions to GameOver regardless of agent counts — see
the counterexample), an update made while Playing transitions to
GameOver iff all agents are resolved (spawn counter at the cap of 100,
zero active-unresolved agents) and fewer than 50 reached the gate; under
the same all-resolved condition it transitions to LevelComplete iff at
least 50 reached and the level is below 10, and to Victory iff at least
50 reached at level 10 or above. -/
theorem update_winCondition (e : GameEngine) (now r deltaTime : ℚ)
    (hplay : e.gameState = GameState.PLAYING)
    (hlimit : e.levelTimeLimit = 300) (htot : e.totalPassengers = 100)
    (htime : now - e.levelStartTime < 300) :
    ((e.update now r deltaTime).gameState = GameState.GAME_OVER ↔
      ((e.update now r deltaTime).passengersSpawned ≥ 100 ∧
       (e.update now r deltaTime).activeUnresolvedCount = 0 ∧
       (e.update now r deltaTime).reachedCount < 50)) ∧
    ((e.update now r deltaTime).gameState = GameState.LEVEL_COMPLETE ↔
      ((e.update now r deltaTime).passengersSpawned ≥ 100 ∧
       (e.update now r deltaTime).activeUnresolvedCount = 0 ∧
       (e.update now r deltaTime).reachedCount ≥ 50 ∧
       (e.update now r deltaTime).currentLevel < 10)) ∧
    ((e.update now r deltaTime).gameState = GameState.VICTORY ↔
      ((e.update now r deltaTime).passengersSpawned ≥ 100 ∧
       (e.update now r deltaTime).activeUnresolvedCount = 0 ∧
       (e.update now r deltaTime).reachedCount ≥ 50 ∧
       10 ≤ (e.update now r deltaTime).currentLevel)) := by
  have hupd := update_of_playing e now r deltaTime hplay (by rw [hlimit]; exact htime)
  set e3 := (e.updateSpawn r deltaTime).updatePhysics deltaTime with he3
  have hfld := updateWinCheck_fields e3
  have hg := updateWinCheck_gameState e3
  have hg3 : e3.gameState = GameState.PLAYING := by
    rw [he3, (updatePhysics_fields (e.updateSpawn r deltaTime) deltaTime).1,
      (updateSpawn_fields e r deltaTime).1, hplay]
  have ht3 : e3.totalPassengers = 100 := by
    rw [he3, (updatePhysics_fields (e.updateSpawn r deltaTime) deltaTime).2.2.1,
      (updateSpawn_fields e r deltaTime).2.2.1, htot]
  have hcnt1 : e3.updateWinCheck.activeUnresolvedCount = e3.activeUnresolvedCount := by
    unfold GameEngine.activeUnresolvedCount; rw [hfld.1]
  have hcnt2 : e3.updateWinCheck.reachedCount = e3.reachedCount := by
    unfold GameEngine.reachedCount; rw [hfld.1]
  rw [hupd, hg, hcnt1, hcnt2, hfld.2.1, hfld.2.2.1, hg3]
  by_cases h1 : e3.allResolved
  · have h1' : e3.passengersSpawned ≥ 100 ∧ e3.activeUnresolvedCount = 0 :=
      ⟨ht3 ▸ h1.1, h1.2⟩
    by_cases h2 : e3.reachedCount ≥ 50
    · by_cases h3 : e3.currentLevel ≥ 10
      · rw [if_pos h1, if_pos h2, if_pos h3]
        exact ⟨by simp [h1'.1, h1'.2, not_lt.mpr h2],
          by simp [h1'.1, h1'.2, h2, not_lt.mpr h3],
          by simp [h1'.1, h1'.2, h2, h3]⟩
      · rw [if_pos h1, if_pos h2, if_neg h3]
        exact ⟨by simp [h1'.1, h1'.2, not_lt.mpr h2],
          by simp [h1'.1, h1'.2, h2, not_le.mp h3],
          by simp [h1'.1, h1'.2, h2, h3]⟩
    · rw [if_pos h1, if_neg h2]
      exact ⟨by simp [h1'.1, h1'.2, not_le.mp h2],
        by simp [h2], by simp [h2]⟩
  · rw [if_neg h1]
    have h1'' : ¬(e3.passengersSpawned ≥ 100 ∧ e3.activeUnresolvedCount = 0) := by
      unfold GameEngine.allResolved at h1
      rw [ht3] at h1
      exact h1
    refine ⟨⟨fun h => absurd h (by simp), fun h => absurd ⟨h.1, h.2.1⟩ h1''⟩,
      ⟨fun h => absurd h (by simp), fun h => absurd ⟨h.1, h.2.1⟩ h1''⟩,
      ⟨fun h => absurd h (by simp), fun h => absurd ⟨h.1, h.2.1⟩ h1''⟩⟩

/-- Evaluation of `update_winCondition`: an all-resolved Playing engine
with zero reached agents transitions to GameOver. -/
theorem update_winCondition_witness :
    (engineResolved.update 1 0 (1/60)).gameState = GameState.GAME_OVER :=
  (update_winCondition engineResolved 1 0 (1/60) rfl rfl rfl
    (by with_unfolding_all decide)).1.mpr
    (by refine ⟨?_, ?_, ?_⟩ <;> with_unfolding_all decide)

/-- C9: while Playing, a click never selects an ability whose remaining
count is 0; with a zero-count ability selected, a click assigns no
ability to any ability-less agent and leaves the whole inventory
untouched; and no inventory count ever becomes negative. -/
theorem zero_inventory_no_assignment (e : GameEngine) (x y now : ℚ)
    (rand : ℕ → ℚ) (k : SuperPower)
    (hplay : e.gameState = GameState.PLAYING) :
    (e.powerCounts.get k = 0 → e.selectedPower ≠ some k →
      (e.handleClick x y now rand).selectedPower ≠ some k) ∧
    (e.selectedPower = some k → e.powerCounts.get k = 0 →
      (e.handleClick x y now rand).powerCounts = e.powerCounts ∧
      (∀ j q, e.passengers.get? j = some q → q.superPower = none →
        ∃ q2, (e.handleClick x y now rand).passengers.get? j = some q2 ∧
          q2.superPower = none)) ∧
    ((∀ j, 0 ≤ e.powerCounts.get j) →
      ∀ j, 0 ≤ (e.handleClick x y now rand).powerCounts.get j) := by
  have hne1 : (e.gameState = GameState.MENU) = False := by simp [hplay]
  have hne2 : (e.gameState = GameState.LEVEL_COMPLETE) = False := by simp [hplay]
  have hne3 : (e.gameState = GameState.GAME_OVER ∨
      e.gameState = GameState.VICTORY) = False := by simp [hplay]
  have hne4 : (e.gameState ≠ GameState.PLAYING) = False := by simp [hplay]
  simp only [GameEngine.handleClick, hne1, hne2, hne3, hne4, if_false]
  by_cases hui : y ≥ e.canvasHeight - e.uiHeight
  · rw [if_pos hui]
    obtain ⟨hps, hpc, _, hsel⟩ :=
      handleUIClick_fields e x y (e.canvasHeight - e.uiHeight)
    refine ⟨?_, ?_, ?_⟩
    · intro hk hnotk
      rcases hsel with h | h | h
      · rw [h]; simp
      · obtain ⟨k2, hk2, hpos⟩ := h
        rw [hk2]
        intro hcon
        obtain rfl := Option.some.inj hcon
        omega
      · rw [h]; exact hnotk
    · intro _ _
      exact ⟨hpc, fun j q hj hq => ⟨q, by rw [hps]; exact hj, hq⟩⟩
    · intro hnn j
      rw [hpc]; exact hnn j
  · rw [if_neg hui]
    split
    next i hfc =>
      obtain ⟨_, hpc, hsel, _, hpass⟩ :=
        tryActivate_effects { e with selectedPassenger := some i } i x y
      exact ⟨fun hk hnotk => by rw [hsel]; exact hnotk,
        fun _ _ => ⟨hpc, fun j q hj hq => hpass j q hj hq⟩,
        fun hnn j => by rw [hpc]; exact hnn j⟩
    next hfc =>
      split
      next pw hsp =>
        split_ifs with hcnt
        · split
          next j hj =>
            refine ⟨fun hk hnotk => by simp, ?_, ?_⟩
            · intro hselk hk
              exfalso
              rw [hsp] at hselk
              obtain rfl := Option.some.inj hselk
              omega
            · intro hnn j2
              rw [PowerCounts.get_set]
              split_ifs with hj2
              · exact le_max_left 0 _
              · exact hnn j2
          next hj =>
            split
            next kk hkk =>
              obtain ⟨_, hpc, hsel, _, hpass⟩ := tryActivate_effects e kk x y
              exact ⟨fun hk hnotk => by rw [hsel]; exact hnotk,
                fun _ _ => ⟨hpc, fun j2 q hj2 hq => hpass j2 q hj2 hq⟩,
                fun hnn j2 => by rw [hpc]; exact hnn j2⟩
            next hkk =>
              exact ⟨fun hk hnotk => hnotk,
                fun _ _ => ⟨rfl, fun j2 q hj2 hq => ⟨q, hj2, hq⟩⟩,
                fun hnn j2 => hnn j2⟩
        · split
          next kk hkk =>
            obtain ⟨_, hpc, hsel, _, hpass⟩ := tryActivate_effects e kk x y
            exact ⟨fun hk hnotk => by rw [hsel]; exact hnotk,
              fun _ _ => ⟨hpc, fun j2 q hj2 hq => hpass j2 q hj2 hq⟩,
              fun hnn j2 => by rw [hpc]; exact hnn j2⟩
          next hkk =>
            exact ⟨fun hk hnotk => hnotk,
              fun _ _ => ⟨rfl, fun j2 q hj2 hq => ⟨q, hj2, hq⟩⟩,
              fun hnn j2 => hnn j2⟩
      next hsp =>
        split
        next kk hkk =>
          obtain ⟨_, hpc, hsel, _, hpass⟩ := tryActivate_effects e kk x y
          exact ⟨fun hk hnotk => by rw [hsel]; exact hnotk,
            fun _ _ => ⟨hpc, fun j2 q hj2 hq => hpass j2 q hj2 hq⟩,
            fun hnn j2 => by rw [hpc]; exact hnn j2⟩
        next hkk =>
          exact ⟨fun hk hnotk => hnotk,
            fun _ _ => ⟨rfl, fun j2 q hj2 hq => ⟨q, hj2, hq⟩⟩,
            fun hnn j2 => hnn j2⟩

/-- Evaluation of `zero_inventory_no_assignment`: a click near the
eligible agent with the exhausted bridge ability selected changes no
count; the bridge count stays 0. -/
theorem zero_inventory_no_assignment_witness :
    (engineNoBridges.handleClick 1 1 0 (fun _ => 1/2)).powerCounts =
      engineNoBridges.powerCounts ∧
    (engineNoBridges.handleClick 1 1 0 (fun _ => 1/2)).powerCounts.get .bridge = 0 := by
  have h := zero_inventory_no_assignment engineNoBridges 1 1 0 (fun _ => 1/2)
    SuperPower.bridge rfl
  have h2 := (h.2.1 rfl rfl).1
  exact ⟨h2, by rw [h2]; with_unfolding_all rfl⟩

/-- C2: the engine's time-limit clock ignores pauses.  A level started at
`t = 0`, paused immediately and resumed at `t = 300` has a pause-adjusted
elapsed time of 0 s — the spec's effective clock says the 300 s limit is
nowhere near expired — yet the very next `update` call transitions to
GameOver, because `update` compares the raw wall clock against the limit
and `pause` records no times at all. -/
theorem update_timeout_ignores_pause :
    ((((baseEngine.startLevel 1 0 (fun _ => 1/2)).pause).pause).update 300 (1/2) (1/60)).gameState
        = GameState.GAME_OVER ∧
    pauseAdjustedElapsed 300 0 300 < 300 := by
  constructor
  · with_unfolding_all rfl
  · with_unfolding_all decide

end Game

namespace DistGame

open Game

/-- C1: in the wall-breaking engine variant, an agent holding the
wall-breaking power whose activation succeeds on contact with a
wall-typed, non-platform obstacle (width ≤ height) has the obstacle
removed from the obstacle list (by id) and from the wall collection (by
coordinates), its power permanently stripped, and its direction left
unchanged. -/
theorem wallBreak_removes_and_strips (p : Passenger) (o : Obstacle)
    (obstacles : List Obstacle) (walls : List Box)
    (hpw : p.superPower = some SuperPower.doorBreaker)
    (hcool : p.powerCooldown ≤ 0) (huse : p.isUsingPower = false)
    (htype : o.type = "wall") (hdim : o.width ≤ o.height) :
    (∀ ob ∈ (handleObstacleInteraction p o obstacles walls).2.1, ob.id ≠ o.id) ∧
    (∀ ob ∈ obstacles, ob.id ≠ o.id →
      ob ∈ (handleObstacleInteraction p o obstacles walls).2.1) ∧
    (∀ w ∈ (handleObstacleInteraction p o obstacles walls).2.2,
      ¬(w.x = o.x ∧ w.y = o.y ∧ w.width = o.width ∧ w.height = o.height)) ∧
    (handleObstacleInteraction p o obstacles walls).1.superPower = none ∧
    (handleObstacleInteraction p o obstacles walls).1.direction = p.direction := by
  have hact := activateSuperPower_success p (by simp [hpw]) hcool huse
  have hiso : ¬(o.width > o.height) := not_lt.mpr hdim
  simp only [handleObstacleInteraction, htype, hpw, hact, hiso,
    if_true, if_false, eq_self_iff_true, decide_eq_true_eq, and_true, true_and,
    decide_False, Bool.false_eq_true, not_false_eq_true,
    Passenger.stopUsingPower]
  refine ⟨?_, ?_, ?_⟩
  · intro ob hob
    simp only [List.mem_filter, decide_eq_true_eq] at hob
    exact hob.2
  · intro ob hob hid
    simp only [List.mem_filter, decide_eq_true_eq]
    exact ⟨hob, hid⟩
  · intro w hw
    simp only [List.mem_filter] at hw
    have h2 := hw.2
    intro hcontra
    obtain ⟨e1, e2, e3, e4⟩ := hcontra
    simp [e1, e2, e3, e4] at h2

/-- Evaluation of `wallBreak_removes_and_strips` at a concrete smasher
and wall. -/
theorem wallBreak_removes_and_strips_witness :
    (handleObstacleInteraction pSmash wallObstacle [wallObstacle] [wallBox]).1.superPower = none ∧
    (handleObstacleInteraction pSmash wallObstacle [wallObstacle] [wallBox]).1.direction
      = pSmash.direction := by
  have h := wallBreak_removes_and_strips pSmash wallObstacle [wallObstacle] [wallBox]
    (by with_unfolding_all rfl) (by with_unfolding_all decide)
    (by with_unfolding_all rfl) (by with_unfolding_all rfl)
    (by with_unfolding_all decide)
  exact ⟨h.2.2.2.1, h.2.2.2.2⟩

end DistGame
